import Mathlib

/-!
Verification of the AutoSys Pro core (modulo_15/autosys-pro) against its
specification.  The Python source is shallowly embedded: each relevant
method becomes an executable Lean definition over explicit state, with
`ℚ` standing for Python floats/seconds and `Int` for sortable timestamps.
-/

namespace AutoSys

/-- Python's `str.lower()` restricted to what the severity strings need:
lower-case each character. -/
def pyLower (s : String) : String := String.mk (s.data.map Char.toLower)

/-! ## Alert cooldown: severity → base window tables

`GerenciadorCooldown._get_base_cooldown` (src/alertas/priorizacao.py) and
`GerenciadorAlertas._get_cooldown_periodo` (src/alertas/canais.py) both map a
severity string, lower-cased, through a literal table with default 1800. -/

/-- `GerenciadorCooldown._get_base_cooldown` from priorizacao.py:
`{"critica": 60, "alta": 300, "media": 1800, "baixa": 3600, "info": 43200}`,
default 1800, keyed on `severidade.lower()`. -/
def getBaseCooldown (severidade : String) : ℚ :=
  if pyLower severidade = "critica" then 60
  else if pyLower severidade = "alta" then 300
  else if pyLower severidade = "media" then 1800
  else if pyLower severidade = "baixa" then 3600
  else if pyLower severidade = "info" then 43200
  else 1800

/-- `GerenciadorAlertas._get_cooldown_periodo` from canais.py:
`{"critica": 60, "alta": 300, "media": 1800, "baixa": 3600, "info": 86400}`,
default 1800, keyed on `severidade.lower()`. -/
def getCooldownPeriodo (severidade : String) : ℚ :=
  if pyLower severidade = "critica" then 60
  else if pyLower severidade = "alta" then 300
  else if pyLower severidade = "media" then 1800
  else if pyLower severidade = "baixa" then 3600
  else if pyLower severidade = "info" then 86400
  else 1800

/-! ## Adaptive cooldown window (`GerenciadorCooldown.registrar_envio`)

`registrar_envio` first initialises `adaptive_cooldowns[tipo]` to the
severity's base window when the type is new, then multiplies by 1.5 on a
failed delivery, and otherwise sets `max(base, window * 0.9)`.  The window
for one type under a fixed severity is a fold of `stepWindow` over the
sequence of recorded success flags. -/

/-- One `registrar_envio` update of `adaptive_cooldowns[tipo]`, with the
entry already initialised (the `tipo not in adaptive_cooldowns` branch is
`initWindow` below). -/
def stepWindow (base w : ℚ) (sucesso : Bool) : ℚ :=
  if !sucesso then w * (3/2) else max base (w * (9/10))

/-- Initialisation: a type not yet in `adaptive_cooldowns` starts at the
severity's base window before the success/failure adjustment is applied. -/
def initWindow (base : ℚ) (w : Option ℚ) : ℚ :=
  w.getD base

/-- The adaptive window after a sequence of `registrar_envio` calls for one
type, fixed severity: fold of `stepWindow` over the success flags. -/
def runEnvios (base w : ℚ) (envios : List Bool) : ℚ :=
  envios.foldl (stepWindow base) w

theorem getBaseCooldown_pos (s : String) : 0 < getBaseCooldown s := by
  unfold getBaseCooldown
  split_ifs <;> norm_num

theorem stepWindow_ge (base w : ℚ) (hb : 0 < base) (hw : base ≤ w)
    (s : Bool) : base ≤ stepWindow base w s := by
  cases s with
  | false =>
      simp only [stepWindow, Bool.not_false, if_pos]
      nlinarith
  | true =>
      simp only [stepWindow, Bool.not_true]
      exact le_max_left _ _

theorem runEnvios_ge (base : ℚ) (hb : 0 < base) (envios : List Bool) :
    ∀ w, base ≤ w → base ≤ runEnvios base w envios := by
  induction envios with
  | nil => intro w hw; simpa [runEnvios] using hw
  | cons s rest ih =>
      intro w hw
      simpa [runEnvios, List.foldl_cons] using
        ih (stepWindow base w s) (stepWindow_ge base w hb hw s)

/-- C6: For every alert type, every sequence of `registrar_envio` calls with
a fixed severity preserves the invariant that the type's adaptive cooldown
window (`adaptive_cooldowns`) is at least that severity's base cooldown
window: starting from the initialisation value of a fresh type, the window
after any sequence of recorded success flags stays ≥ the base window. -/
theorem registrar_envio_window_ge_base (severidade : String)
    (envios : List Bool) :
    getBaseCooldown severidade ≤
      runEnvios (getBaseCooldown severidade)
        (initWindow (getBaseCooldown severidade) none) envios := by
  exact runEnvios_ge _ (getBaseCooldown_pos severidade) envios _
    (le_of_eq (by simp [initWindow]))

theorem runEnvios_replicate_false (base : ℚ) (n : ℕ) :
    runEnvios base base (List.replicate n false) = base * (3/2) ^ n := by
  have h : ∀ (m : ℕ) (w : ℚ),
      runEnvios base w (List.replicate m false) = w * (3/2) ^ m := by
    intro m
    induction m with
    | zero => intro w; simp [runEnvios]
    | succ k ih =>
        intro w
        rw [List.replicate_succ]
        simp only [runEnvios, List.foldl_cons] at *
        rw [ih (stepWindow base w false)]
        simp only [stepWindow, Bool.not_false, if_pos]
        ring
  exact h n base

/-- C5: for every alert type and severity, starting from the severity's base
cooldown window, after `n` consecutive recorded delivery failures
(`registrar_envio` with `sucesso = false`) the adaptive window equals
`base * 1.5 ^ n`, and one subsequent recorded success sets it to
`0.9` times that value, floored at the base window. -/
theorem adaptive_cooldown_widening (severidade : String) (n : ℕ) :
    runEnvios (getBaseCooldown severidade) (getBaseCooldown severidade)
        (List.replicate n false) =
      getBaseCooldown severidade * (3/2) ^ n ∧
    runEnvios (getBaseCooldown severidade) (getBaseCooldown severidade)
        (List.replicate n false ++ [true]) =
      max (getBaseCooldown severidade)
        (getBaseCooldown severidade * (3/2) ^ n * (9/10)) := by
  constructor
  · exact runEnvios_replicate_false _ n
  · simp only [runEnvios, List.foldl_append, List.foldl_cons, List.foldl_nil]
    rw [show List.foldl (stepWindow (getBaseCooldown severidade))
          (getBaseCooldown severidade) (List.replicate n false) =
        getBaseCooldown severidade * (3/2) ^ n from
      runEnvios_replicate_false _ n]
    simp [stepWindow]

/-- C10 counterexample: the two severity→base-cooldown tables disagree at
severity `"info"`: priorizacao.py returns 43200 seconds where canais.py
returns 86400 seconds. -/
theorem cooldown_tables_differ_at_info :
    getBaseCooldown "info" = 43200 ∧ getCooldownPeriodo "info" = 86400 ∧
      getBaseCooldown "info" ≠ getCooldownPeriodo "info" := by
  refine ⟨by decide, by decide, by decide⟩

/-- C10 (amended): the two severity→base-cooldown tables agree on every
severity except those lower-casing to `"info"` (where priorizacao.py has a
12-hour window and canais.py a 24-hour one): for every other severity
string, including unknown ones, both return the same number of seconds. -/
theorem cooldown_tables_agree_off_info (severidade : String)
    (h : pyLower severidade ≠ "info") :
    getBaseCooldown severidade = getCooldownPeriodo severidade := by
  unfold getBaseCooldown getCooldownPeriodo
  split_ifs <;> rfl

/-- Witness for `cooldown_tables_agree_off_info` at severity `"alta"`. -/
theorem cooldown_tables_agree_off_info_witness :
    getBaseCooldown "alta" = getCooldownPeriodo "alta" :=
  cooldown_tables_agree_off_info "alta" (by decide)

/-! ## Retention sweep (`GerenciadorBackup._limpar_backups_antigos`)

One row of the `backups` table.  Timestamps are ISO strings compared
lexicographically by SQLite; any linearly ordered sortable encoding is
faithful, we use `Int`.  `path` is `NULL` (`none`) on failed attempts. -/

structure BackupRow where
  id : String
  timestamp : Int
  path : Option String
  sucesso : Bool
  erro : Option String := none
  deriving DecidableEq

/-- `_limpar_backups_antigos` from gerenciador.py, acting on the table:
first `SELECT path FROM backups WHERE timestamp < cutoff AND sucesso = 1`
and unlink those artifacts, then `DELETE FROM backups WHERE timestamp <
cutoff` (no success filter).  Returns the surviving table and the list of
artifact paths removed. -/
def limparBackupsAntigos (cutoff : Int) (table : List BackupRow) :
    List BackupRow × List String :=
  let antigos := table.filter (fun r => decide (r.timestamp < cutoff) && r.sucesso)
  let removidos := antigos.filterMap (fun r => r.path)
  let restante := table.filter (fun r => !(decide (r.timestamp < cutoff)))
  (restante, removidos)

/-- An unsuccessful record one day older than the cutoff. -/
def oldFailedRow : BackupRow :=
  { id := "20250101_000000", timestamp := -86400,
    path := none, sucesso := false }

/-- C1 counterexample: an unsuccessful record older than the cutoff is NOT
left untouched in the backups table — the sweep's `DELETE` has no success
filter, so the old failed record is removed from the table. -/
theorem limpar_deletes_old_failed_row :
    oldFailedRow.sucesso = false ∧ oldFailedRow.timestamp < 0 ∧
      (limparBackupsAntigos 0 [oldFailedRow]).1 = [] ∧
      oldFailedRow ∉ (limparBackupsAntigos 0 [oldFailedRow]).1 := by
  refine ⟨rfl, by decide, rfl, by decide⟩

/-- C1 (amended): one retention sweep removes the artifacts of exactly the
successful records older than the cutoff, but deletes from the backups
table every record older than the cutoff, successful or not; records at or
after the cutoff survive. -/
theorem limpar_backups_antigos_spec (cutoff : Int) (table : List BackupRow) :
    (∀ r ∈ table,
        r ∈ (limparBackupsAntigos cutoff table).1 ↔ cutoff ≤ r.timestamp) ∧
    (∀ p ∈ (limparBackupsAntigos cutoff table).2,
        ∃ r ∈ table, r.path = some p ∧ r.timestamp < cutoff ∧ r.sucesso = true) ∧
    (∀ r ∈ table, r.timestamp < cutoff → r.sucesso = true →
        ∀ p, r.path = some p → p ∈ (limparBackupsAntigos cutoff table).2) := by
  refine ⟨?_, ?_, ?_⟩
  · intro r hr
    simp only [limparBackupsAntigos, List.mem_filter, Bool.not_eq_true',
      decide_eq_false_iff_not, not_lt]
    exact ⟨fun h => h.2, fun h => ⟨hr, by simpa using h⟩⟩
  · intro p hp
    simp only [limparBackupsAntigos, List.mem_filterMap, List.mem_filter,
      Bool.and_eq_true, decide_eq_true_eq] at hp
    obtain ⟨r, ⟨⟨hr, hold, hsuc⟩, hpath⟩⟩ := hp
    exact ⟨r, hr, hpath, hold, hsuc⟩
  · intro r hr hold hsuc p hpath
    simp only [limparBackupsAntigos, List.mem_filterMap, List.mem_filter,
      Bool.and_eq_true, decide_eq_true_eq]
    exact ⟨r, ⟨⟨hr, hold, hsuc⟩, hpath⟩⟩

/-- A successful record one day older than the cutoff, with an artifact. -/
def oldOkRow : BackupRow :=
  { id := "20250101_120000", timestamp := -86400,
    path := some "backup_20250101_120000.zip", sucesso := true }

/-- Witness for `limpar_backups_antigos_spec` on a two-row table at cutoff
0: the old successful row's artifact is removed and the old failed row is
deleted from the table. -/
theorem limpar_backups_antigos_spec_witness :
    oldOkRow ∉ (limparBackupsAntigos 0 [oldOkRow, oldFailedRow]).1 ∧
      "backup_20250101_120000.zip" ∈
        (limparBackupsAntigos 0 [oldOkRow, oldFailedRow]).2 := by
  constructor
  · intro hmem
    have h := ((limpar_backups_antigos_spec 0 [oldOkRow, oldFailedRow]).1
      oldOkRow (by decide)).mp hmem
    exact absurd h (by decide)
  · exact (limpar_backups_antigos_spec 0 [oldOkRow, oldFailedRow]).2.2
      oldOkRow (by decide) (by decide) rfl _ rfl

/-! ## Backup strategy selection (`OtimizadorBackup.sugerir_estrategia`)

The type-selection core of `sugerir_estrategia` (inteligencia.py).  Inputs:
whether the ML models are trained, the cluster the KMeans model assigned
(trained path only), today's weekday (`datetime.weekday()`, Monday = 0),
and the days since the last successful backup — `none` when no successful
backup row exists, in which case the code keeps its default value 1. -/

/-- The trained path's `cluster_tipo` map (default `"incremental"`). -/
def clusterTipo (cluster : Nat) : String :=
  if cluster = 0 then "incremental"
  else if cluster = 1 then "completo"
  else if cluster = 2 then "diferencial"
  else "incremental"

/-- The `tipo` chosen by `sugerir_estrategia`: untrained ⇒ rule fallback
(`completo` if days-since-last > 7, else `completo` on Monday, else
`incremental`); trained ⇒ cluster map, overridden to `completo` when
days-since-last > 7.  `dias_desde_ultimo` starts at 1 and is only
recomputed when a successful backup row exists. -/
def sugerirTipo (isTrained : Bool) (cluster diaSemana : Nat)
    (ultimoDias : Option ℚ) : String :=
  let dias := ultimoDias.getD 1
  if !isTrained then
    if dias > 7 then "completo"
    else if diaSemana = 0 then "completo"
    else "incremental"
  else
    if dias > 7 then "completo" else clusterTipo cluster

/-- C2 counterexample: with no successful backup on record (`none`), an
untrained model and weekday 1 (a Tuesday), `sugerir_estrategia` picks
`"incremental"`, not the full (`"completo"`) strategy the claim requires
unconditionally. -/
theorem sugerir_tipo_no_backup_not_completo :
    sugerirTipo false 0 1 none = "incremental" ∧
      sugerirTipo false 0 1 none ≠ "completo" := by
  exact ⟨by decide, by decide⟩

/-- C2 (amended): whenever the days since the last successful backup exceed
7, `sugerir_estrategia` returns type `"completo"` for every hour, weekday,
cluster and trained state; but when no successful backup exists the days
counter keeps its default of 1, so the type is `"completo"` only when the
weekday rule (untrained, Monday) or the cluster map (trained) selects it. -/
theorem sugerir_tipo_forced_completo (isTrained : Bool)
    (cluster diaSemana : Nat) (ultimoDias : Option ℚ)
    (h : 7 < ultimoDias.getD 1) :
    sugerirTipo isTrained cluster diaSemana ultimoDias = "completo" := by
  cases isTrained <;> simp [sugerirTipo, h]

/-- Witness for `sugerir_tipo_forced_completo`: 10 days since the last
successful backup forces a full backup (untrained path shown). -/
theorem sugerir_tipo_forced_completo_witness :
    sugerirTipo false 0 3 (some 10) = "completo" :=
  sugerir_tipo_forced_completo false 0 3 (some 10) (by norm_num)

/-! ## Backup execution (`GerenciadorBackup.executar_backup`)

The control flow of `executar_backup`: determine targets, estimate their
size, check disk space, run `_executar_backup_sync` in the thread pool,
optionally compress, persist one success record, prune old backups; any
exception is caught, one failure record is persisted, and a `BackupError`
is re-raised.  Filesystem quantities (free space, estimated size, the copy
step's outcome) are the function's abstract inputs. -/

/-- Result of `_executar_backup_sync`. -/
structure ResultadoSync where
  tamanho_mb : ℚ
  arquivos : Nat

/-- Outcome of the copy phase: either the sync result or the message of the
exception it raised. -/
inductive CopyOutcome where
  | ok (r : ResultadoSync)
  | falha (msg : String)

/-- What one `executar_backup` call produced: the returned value or the
`BackupError` message, the records persisted via `_registrar_backup`
during the call (in order), and whether `_executar_backup_sync` was ever
entered (i.e. whether any backup file was written). -/
structure ExecOutcome where
  resultado : Except String String
  registros : List BackupRow
  escreveuArtefatos : Bool

/-- `GerenciadorBackup._verificar_espaco`: free space must be at least
twice the estimated size. -/
def verificarEspaco (espacoLivreMB tamanhoEstimadoMB : ℚ) : Bool :=
  espacoLivreMB ≥ tamanhoEstimadoMB * 2

/-- `GerenciadorBackup.executar_backup` over abstract filesystem inputs.
`id`/`now` identify the attempt; the space check runs before any write;
the `except` clause registers a failure row (`path` NULL, `erro` set) and
re-raises `BackupError("Falha no backup: ...")`. -/
def executarBackup (id : String) (now : Int)
    (espacoLivreMB tamanhoEstimadoMB : ℚ) (copia : CopyOutcome) :
    ExecOutcome :=
  if !verificarEspaco espacoLivreMB tamanhoEstimadoMB then
    { resultado := .error "Falha no backup: Espaço em disco insuficiente",
      registros := [{ id := id, timestamp := now, path := none,
                      sucesso := false,
                      erro := some "Espaço em disco insuficiente" }],
      escreveuArtefatos := false }
  else
    match copia with
    | .falha msg =>
        { resultado := .error ("Falha no backup: " ++ msg),
          registros := [{ id := id, timestamp := now, path := none,
                          sucesso := false, erro := some msg }],
          escreveuArtefatos := true }
    | .ok _ =>
        { resultado := .ok id,
          registros := [{ id := id, timestamp := now,
                          path := some ("backup_" ++ id), sucesso := true,
                          erro := none }],
          escreveuArtefatos := true }

/-- C3: when free space is below twice the estimated size,
`executar_backup` fails with the space `BackupError` and never enters the
copy phase (no partial artifacts are written); conversely, the copy phase
only runs when free space ≥ 2 × estimated size. -/
theorem executar_backup_space_safety (id : String) (now : Int)
    (espaco tam : ℚ) (copia : CopyOutcome)
    (h : espaco < tam * 2) :
    (executarBackup id now espaco tam copia).resultado =
        .error "Falha no backup: Espaço em disco insuficiente" ∧
      (executarBackup id now espaco tam copia).escreveuArtefatos = false ∧
      ∀ e t c, (executarBackup id now e t c).escreveuArtefatos = true →
        t * 2 ≤ e := by
  have hv : verificarEspaco espaco tam = false := by
    simp [verificarEspaco, not_le.mpr h]
  refine ⟨?_, ?_, ?_⟩
  · simp [executarBackup, hv]
  · simp [executarBackup, hv]
  · intro e t c hw
    by_contra hlt
    push_neg at hlt
    have hv2 : verificarEspaco e t = false := by
      simp [verificarEspaco, not_le.mpr hlt]
    simp [executarBackup, hv2] at hw

/-- Witness for `executar_backup_space_safety`: 100 MB free, 80 MB
estimated (needs 160 MB) ⇒ the space error is raised with no write. -/
theorem executar_backup_space_safety_witness :
    (executarBackup "20250601_020000" 0 100 80
        (.ok ⟨75, 10⟩)).resultado =
      .error "Falha no backup: Espaço em disco insuficiente" ∧
    (executarBackup "20250601_020000" 0 100 80
        (.ok ⟨75, 10⟩)).escreveuArtefatos = false := by
  have h := executar_backup_space_safety "20250601_020000" 0 100 80
    (.ok ⟨75, 10⟩) (by norm_num)
  exact ⟨h.1, h.2.1⟩

/-- C4: every `executar_backup` call persists exactly one BackupRecord for
the attempt — with `sucesso = true` when it returns successfully, and with
`sucesso = false` and the error message when it terminates with a
`BackupError` (space error or copy failure). -/
theorem executar_backup_exactly_one_record (id : String) (now : Int)
    (espaco tam : ℚ) (copia : CopyOutcome) :
    ∃ r : BackupRow,
      (executarBackup id now espaco tam copia).registros = [r] ∧
      r.id = id ∧
      ((executarBackup id now espaco tam copia).resultado = .ok id →
        r.sucesso = true) ∧
      (∀ msg, (executarBackup id now espaco tam copia).resultado =
          .error msg → r.sucesso = false ∧ r.erro.isSome) := by
  unfold executarBackup
  by_cases hv : verificarEspaco espaco tam
  · cases copia with
    | ok r =>
        refine ⟨{ id := id, timestamp := now, path := some ("backup_" ++ id),
                  sucesso := true, erro := none },
          by simp [hv], rfl, fun _ => rfl, fun msg hm => ?_⟩
        simp [hv] at hm
    | falha msg =>
        refine ⟨{ id := id, timestamp := now, path := none,
                  sucesso := false, erro := some msg },
          by simp [hv], rfl, fun hok => ?_, fun m hm => ⟨rfl, rfl⟩⟩
        simp [hv] at hok
  · refine ⟨{ id := id, timestamp := now, path := none, sucesso := false,
              erro := some "Espaço em disco insuficiente" },
      by simp [hv], rfl, fun hok => ?_, fun m hm => ⟨rfl, rfl⟩⟩
    simp [hv] at hok

/-! ## Alert priority (`PriorizadorAlertas.calcular_prioridade`)

The score sums four components — severity, frequency, impact, recency —
and clamps at 100.  The frequency input is the number of alerts of the
same type in the last 24 hours (a database count); the recency input is
the age of the alert in minutes, `none` when the timestamp failed to
parse (the `except` path returns 0).

However, priorizacao.py never imports `config`, and
`_calcular_frequencia`'s first statement is
`sqlite3.connect(config.DB_PATH)`: every call raises `NameError`.
`calcular_prioridade` invokes it unconditionally with no `try`, so as
written the method raises on every alert and never returns a score.
`calcularFrequencia`/`calcularPrioridadeSource` embed the method as it
executes; `frequenciaScore`/`calcularPrioridade` embed the computation the
body was written to perform past the failing statement (reachable once the
missing import is fixed). -/

/-- The `severidade_scores` table, default 20, keyed on lower-cased
severity (`alerta.get("severidade", "media").lower()`). -/
def severidadeScore (severidade : String) : ℚ :=
  if pyLower severidade = "critica" then 40
  else if pyLower severidade = "alta" then 30
  else if pyLower severidade = "media" then 20
  else if pyLower severidade = "baixa" then 10
  else if pyLower severidade = "info" then 5
  else 20

/-- The branch chain of `_calcular_frequencia` over the 24-hour count of
alerts of the type: the score its body computes after the database query.
Unreachable in the source as written — the query line raises `NameError`
first (see `calcularFrequencia`). -/
def frequenciaScore (total : Nat) : ℚ :=
  if total > 50 then 20
  else if total > 20 then 15
  else if total > 10 then 10
  else if total > 5 then 5
  else if total > 2 then 2
  else 0

/-- The `tipos_impacto` table of `_calcular_impacto`, default 5. -/
def tiposImpacto (tipo : String) : ℚ :=
  if tipo = "cpu_alta" then 15
  else if tipo = "memoria_alta" then 15
  else if tipo = "disco_alto" then 20
  else if tipo = "predicao_falha" then 25
  else if tipo = "backup_erro" then 10
  else if tipo = "servico_parado" then 25
  else 5

/-- `PriorizadorAlertas._calcular_impacto`: type base impact, boosted when
the alert carries a value exceeding its threshold by >50% (+10) or >20%
(+5), clamped at 25.  `valorThreshold` is `none` when the alert carries no
`valor`/`threshold` pair. -/
def impactoScore (tipo : String) (valorThreshold : Option (ℚ × ℚ)) : ℚ :=
  let extra :=
    match valorThreshold with
    | some (valor, threshold) =>
        if valor > threshold * (3/2) then (10 : ℚ)
        else if valor > threshold * (6/5) then 5
        else 0
    | none => 0
  min 25 (tiposImpacto tipo + extra)

/-- `PriorizadorAlertas._calcular_recencia` as a function of the alert's
age in minutes; `none` models a timestamp that failed to parse. -/
def recenciaScore (difMinutos : Option ℚ) : ℚ :=
  match difMinutos with
  | none => 0
  | some d =>
      if d < 5 then 15
      else if d < 15 then 10
      else if d < 30 then 5
      else if d < 60 then 2
      else 0

/-- The score `calcular_prioridade` was written to produce: severity +
capped frequency + impact + recency, clamped at 100.  In the source as
written this point is never reached (see `calcularPrioridadeSource`). -/
def calcularPrioridade (severidade tipo : String) (total : Nat)
    (valorThreshold : Option (ℚ × ℚ)) (difMinutos : Option ℚ) : ℚ :=
  min 100 (severidadeScore severidade
    + min 20 (frequenciaScore total * 2)
    + impactoScore tipo valorThreshold
    + recenciaScore difMinutos)

/-- `PriorizadorAlertas._calcular_frequencia` as the source executes: its
first statement dereferences `config.DB_PATH` (priorizacao.py line 50),
but the module never imports `config`, so every call raises `NameError`
before the 24-hour count `total` is ever read. -/
def calcularFrequencia (tipo : String) (total : Nat) : Except String ℚ :=
  .error "name 'config' is not defined"

/-- `PriorizadorAlertas.calcular_prioridade` as the source executes: the
severity component is added, then `_calcular_frequencia` is called
unconditionally (line 37) with no surrounding `try`, so its `NameError`
propagates out of every call. -/
def calcularPrioridadeSource (severidade tipo : String) (total : Nat)
    (valorThreshold : Option (ℚ × ℚ)) (difMinutos : Option ℚ) :
    Except String ℚ :=
  match calcularFrequencia tipo total with
  | .error e => .error e
  | .ok freq =>
      .ok (min 100 (severidadeScore severidade
        + min 20 (freq * 2)
        + impactoScore tipo valorThreshold
        + recenciaScore difMinutos))

theorem severidadeScore_nonneg (s : String) : 0 ≤ severidadeScore s := by
  unfold severidadeScore; split_ifs <;> norm_num

theorem frequenciaScore_nonneg (n : Nat) : 0 ≤ frequenciaScore n := by
  unfold frequenciaScore; split_ifs <;> norm_num

theorem tiposImpacto_nonneg (t : String) : 0 ≤ tiposImpacto t := by
  unfold tiposImpacto; split_ifs <;> norm_num

theorem impactoScore_nonneg (t : String) (vt : Option (ℚ × ℚ)) :
    0 ≤ impactoScore t vt := by
  unfold impactoScore
  have hb := tiposImpacto_nonneg t
  rcases vt with _ | ⟨v, th⟩ <;> simp only [le_min_iff] <;>
    refine ⟨by norm_num, ?_⟩
  · simpa using hb
  · split_ifs <;> linarith

theorem recenciaScore_nonneg (d : Option ℚ) : 0 ≤ recenciaScore d := by
  rcases d with _ | d
  · norm_num [recenciaScore]
  · simp only [recenciaScore]
    split_ifs <;> norm_num

/-- The intended score lies in [0, 100] for every severity, type, 24-hour
count, value/threshold pair and alert age: the claimed bound holds of the
computation `calcular_prioridade` was written to perform, supporting the
reading that the missing import, not the formula, is the defect. -/
theorem calcular_prioridade_bounds (severidade tipo : String) (total : Nat)
    (valorThreshold : Option (ℚ × ℚ)) (difMinutos : Option ℚ) :
    0 ≤ calcularPrioridade severidade tipo total valorThreshold difMinutos ∧
      calcularPrioridade severidade tipo total valorThreshold difMinutos
        ≤ 100 := by
  constructor
  · apply le_min (by norm_num)
    have h1 := severidadeScore_nonneg severidade
    have h2 := frequenciaScore_nonneg total
    have h3 := impactoScore_nonneg tipo valorThreshold
    have h4 := recenciaScore_nonneg difMinutos
    have h2' : (0:ℚ) ≤ min 20 (frequenciaScore total * 2) :=
      le_min (by norm_num) (by linarith)
    linarith
  · exact min_le_left _ _

/-- C9 (code bug): in the source, `calcular_prioridade` never returns a
score at all — for every alert, e.g. a fresh `alta`/`cpu_alta` one, the
unconditional `_calcular_frequencia` call raises `NameError` (`config` is
never imported in priorizacao.py), so no call produces the claimed
[0, 100] value. -/
theorem calcular_prioridade_raises_name_error :
    calcularPrioridadeSource "alta" "cpu_alta" 0 none none
        = .error "name 'config' is not defined" ∧
      ∀ (severidade tipo : String) (total : Nat)
        (valorThreshold : Option (ℚ × ℚ)) (difMinutos : Option ℚ),
        ∃ e, calcularPrioridadeSource severidade tipo total
          valorThreshold difMinutos = .error e :=
  ⟨rfl, fun _ _ _ _ _ => ⟨_, rfl⟩⟩

/-! ## Failure prediction (`PreditorFalhas.prever_falha`, monitoring loop)

`prever_falha` returns the "model not trained" record before entering its
`try` block whenever `is_trained` is false; inside the `try`, any raised
exception lands in the `except` branch which returns probability 0.0 with
`nivel_risco = "erro"`.  (The trained return path references an undefined
name `probabilidad`, so in the source it always takes that `except`
branch; the model keeps both branches, driven by `erroPredicao`.)  The
orchestrator's `_monitoring_loop` (main.py) appends a `predicao_falha`
alert only when the returned probability exceeds
`config.PREDICTION_THRESHOLD`. -/

structure Predicao where
  probabilidade : ℚ
  nivel_risco : String
  mensagem : String

/-- `config.PREDICTION_THRESHOLD` from config.py. -/
def PREDICTION_THRESHOLD : ℚ := 7/10

/-- The risk level assigned by `prever_falha` to a model probability. -/
def nivelRisco (p : ℚ) : String :=
  if p ≥ 4/5 then "crítico"
  else if p ≥ 3/5 then "alto"
  else if p ≥ 2/5 then "médio"
  else if p ≥ 1/5 then "baixo"
  else "mínimo"

/-- `PreditorFalhas.prever_falha` over abstract model inputs: `modelProb`
is what `predict_proba` would yield, `erroPredicao` the message of an
exception raised inside the `try` block (if any). -/
def preverFalha (isTrained : Bool) (modelProb : ℚ)
    (erroPredicao : Option String) : Predicao :=
  if !isTrained then
    { probabilidade := 0, nivel_risco := "desconhecido",
      mensagem := "Modelo não treinado" }
  else
    match erroPredicao with
    | some e =>
        { probabilidade := 0, nivel_risco := "erro",
          mensagem := "Erro na predição: " ++ e }
    | none =>
        { probabilidade := modelProb, nivel_risco := nivelRisco modelProb,
          mensagem := "" }

structure Alerta where
  tipo : String
  severidade : String
  deriving DecidableEq

/-- The failure-prediction step of `AutoSysOrchestrator._monitoring_loop`:
when ML is enabled, run `prever_falha` and append a `predicao_falha`
alert of severity `alta` exactly when the probability exceeds the
threshold. -/
def monitoringAlertas (alertas : List Alerta) (enableML isTrained : Bool)
    (modelProb : ℚ) (erroPredicao : Option String) : List Alerta :=
  if enableML then
    if (preverFalha isTrained modelProb erroPredicao).probabilidade >
        PREDICTION_THRESHOLD then
      alertas ++ [{ tipo := "predicao_falha", severidade := "alta" }]
    else alertas
  else alertas

/-- C7: with an untrained model, `prever_falha` returns probability 0.0
and the "Modelo não treinado" marker (the untrained branch returns before
the `try` block, so nothing can raise), and the monitoring loop appends no
`predicao_falha` alert, since 0 never exceeds the positive threshold
`PREDICTION_THRESHOLD = 0.7`. -/
theorem prever_falha_untrained (alertas : List Alerta) (enableML : Bool)
    (modelProb : ℚ) (erroPredicao : Option String) :
    (preverFalha false modelProb erroPredicao).probabilidade = 0 ∧
      (preverFalha false modelProb erroPredicao).mensagem =
        "Modelo não treinado" ∧
      monitoringAlertas alertas enableML false modelProb erroPredicao =
        alertas := by
  refine ⟨rfl, rfl, ?_⟩
  cases enableML with
  | false => simp [monitoringAlertas]
  | true =>
      simp [monitoringAlertas, preverFalha, PREDICTION_THRESHOLD]
      norm_num

/-! ## Alert dispatch and cooldown suppression (`GerenciadorAlertas.enviar`)

`enviar` first calls `_enriquecer_alerta`, then checks `_em_cooldown`: the
cooldown cache is keyed by `f"{tipo}_{severidade}"` and holds the last
dispatch time; within `_get_cooldown_periodo(severidade)` seconds of it
the method would return `{"status": "cooldown", ...}` before any channel
is contacted, before `_atualizar_cooldown`, and before the
history/database writes.  Times are seconds on a common clock.

But canais.py never imports `socket`: `_enriquecer_alerta` line 104
evaluates `socket.gethostname()` as the eagerly-computed default of
`alerta.get("hostname", ...)`, so every call raises `NameError` — even
when the alert already carries a hostname — and `enviar` fails before the
cooldown gate is ever reached.  (The class cannot even be constructed:
its `__init__` uses the unimported `defaultdict`, and the channel
constructors use the unimported `os`.)  The embedding keeps the full
control flow, with the enrichment step erroring as the source does. -/

/-- The cooldown cache: association list from `tipo_severidade` keys to
the last dispatch time (a Python dict). -/
def cacheLookup : List (String × ℚ) → String → Option ℚ
  | [], _ => none
  | (k, v) :: rest, key => if k = key then some v else cacheLookup rest key

/-- The cache key `f"{alerta['tipo']}_{alerta['severidade']}"`. -/
def chaveCooldown (a : Alerta) : String := a.tipo ++ "_" ++ a.severidade

/-- `GerenciadorAlertas._em_cooldown`. -/
def emCooldown (cache : List (String × ℚ)) (a : Alerta) (now : ℚ) : Bool :=
  match cacheLookup cache (chaveCooldown a) with
  | some ultimoEnvio =>
      decide (now - ultimoEnvio < getCooldownPeriodo a.severidade)
  | none => false

/-- `GerenciadorAlertas._atualizar_cooldown`: dict update of the key. -/
def atualizarCooldown (cache : List (String × ℚ)) (a : Alerta) (now : ℚ) :
    List (String × ℚ) :=
  (chaveCooldown a, now) :: cache.filter (fun kv => kv.1 ≠ chaveCooldown a)

/-- The severity → channel map of `_determinar_canais` (default
`["email"]`). -/
def canaisMap (severidade : String) : List String :=
  if pyLower severidade = "critica" then ["telegram", "email", "slack"]
  else if pyLower severidade = "alta" then ["telegram", "email"]
  else if pyLower severidade = "media" then ["email"]
  else if pyLower severidade = "baixa" then ["email"]
  else if pyLower severidade = "info" then []
  else ["email"]

structure EnvioOutcome where
  status : String
  tentativas : List String
  cache : List (String × ℚ)

/-- `GerenciadorAlertas._enriquecer_alerta` as the source executes: the
hostname line evaluates `socket.gethostname()` unconditionally while
`socket` is never imported, so every call raises `NameError` before
returning the enriched alert. -/
def enriquecerAlerta (a : Alerta) : Except String Alerta :=
  .error "name 'socket' is not defined"

/-- `GerenciadorAlertas.enviar` as the source executes: enrich the alert
(which raises), then gate on `_em_cooldown` — suppressed submissions
would return status `"cooldown"` with no delivery attempts and the cache
untouched, admitted ones would attempt every active channel of the
severity's set and record the dispatch time.  `ativos` is the set of
channels whose `esta_ativo()` is true. -/
def enviar (cache : List (String × ℚ)) (a : Alerta) (now : ℚ)
    (ativos : List String) : Except String EnvioOutcome :=
  match enriquecerAlerta a with
  | .error e => .error e
  | .ok a' =>
      if emCooldown cache a' now then
        .ok { status := "cooldown", tentativas := [], cache := cache }
      else
        .ok { status := "enviado",
              tentativas := (canaisMap a'.severidade).filter
                (fun c => ativos.contains c),
              cache := atualizarCooldown cache a' now }

/-- C8 (code bug): the suppression behaviour the claim describes is
unreachable: even on the claim's own scenario — the `cpu_alta`/`alta`
type re-submitted 10 seconds after a dispatch recorded in the cache,
under the 300-second `alta` window — `enviar` raises the `NameError` of
the unimported `socket` in `_enriquecer_alerta` before the cooldown gate,
and no call on any input ever returns an outcome. -/
theorem enviar_raises_name_error :
    enviar [("cpu_alta_alta", 0)] ⟨"cpu_alta", "alta"⟩ 10
        ["email", "telegram"] = .error "name 'socket' is not defined" ∧
      ∀ (cache : List (String × ℚ)) (a : Alerta) (now : ℚ)
        (ativos : List String),
        ∃ e, enviar cache a now ativos = .error e :=
  ⟨rfl, fun _ _ _ _ => ⟨_, rfl⟩⟩

end AutoSys
